import Mathlib

/-!
# AgentDock — Agent Spending Governance Engine: a shallow embedding

This file embeds the core of the AgentDock governance engine in Lean 4 and
proves properties of it:

* the Policy Evaluator (`loadPolicy`, `getDailySpending`, `evaluateTransaction`
  from `functions/src/policyEngine.ts`),
* the Approval Lifecycle Manager (`registerAgent`, `requestApproval`,
  `getApprovalStatus` from `functions/src/approvalApi.ts`, and the client-side
  `respondToApproval` from `src/services/firebase.ts`),
* the Transaction Ingestion Pipeline (`mapHeliusType`, `onHeliusWebhook` from
  `functions/src/webhookHandler.ts`).

Modelling conventions:

* JavaScript numbers carrying SOL amounts are modelled as rationals (`ℚ`);
  all comparisons in the source are exact order comparisons, so `ℚ` is a
  faithful carrier for the arithmetic the engine performs.
* Timestamps are modelled as natural numbers (milliseconds since the Unix
  epoch).  The source stores timestamps as ISO-8601 strings and compares them
  lexicographically, which agrees with the numeric order on the underlying
  instants; `Date.UTC(y, m, d)` applied to the current UTC date is the
  enclosing multiple of `86400000` ms.
* The Firestore collections are modelled as lists of records; a
  `where(..).limit(1)` query is `List.find?`, and a batched write is a pure
  function from the old list to the new one.
* Reason messages produced by the engine are modelled by the inductive type
  `Reason`, one constructor per `return` site of the source; the source
  interpolates the concrete numbers into the message text, which is
  presentational and does not affect any branch decision.
* Document ids minted by `collection(..).doc()` are supplied as explicit
  parameters (or an id supply `Nat → String` for the ingestion batch).
* Thrown exceptions / rejected promises are modelled with `Except` and, for
  fault-injection, an explicit `FailPoint` argument marking where a storage or
  messaging failure strikes during a handler run.
-/

namespace AgentDock

/-- Status of a registered agent (`'active' | 'paused' | 'offline'`). -/
inductive AgentStatus
  | active
  | paused
  | offline
deriving DecidableEq

/-- Semantic transaction type (`TransactionType` in `webhookHandler.ts`). -/
inductive TransactionType
  | transfer
  | swap
  | stake
  | program_interaction
  | unknown
deriving DecidableEq

/-- Success/failure status of an observed on-chain transaction
(`status: tx.transactionError ? "failed" : "success"`). -/
inductive TxStatus
  | success
  | failed
deriving DecidableEq

/-- Status of an approval request
(`'pending' | 'approved' | 'denied' | 'expired'`). -/
inductive ApprovalStatus
  | pending
  | approved
  | denied
  | expired
deriving DecidableEq

/-- One tag per `return` site of `evaluateTransaction` in `policyEngine.ts`;
the source attaches a message string that interpolates the concrete numbers,
which we elide (it never feeds back into a decision). -/
inductive Reason
  | noActivePolicy
  | perTxLimitExceeded
  | dailyLimitExceeded
  | programNotAllowlisted
  | aboveApprovalThreshold
  | withinPolicyLimits
deriving DecidableEq

/-- `SpendingPolicy` of `policyEngine.ts`.  `updatedAt` is an epoch-ms
timestamp (the source stores an ISO string). -/
structure SpendingPolicy where
  id : String
  agentId : String
  dailyLimitSol : ℚ
  perTxLimitSol : ℚ
  allowlistedPrograms : List String
  requireApprovalAbove : ℚ
  isActive : Bool
  updatedAt : Nat
deriving DecidableEq

/-- Result record of the Policy Evaluator (`PolicyEvaluation` in
`policyEngine.ts`). -/
structure PolicyEvaluation where
  autoApproved : Bool
  reason : Reason
deriving DecidableEq

/-- A stored transaction document of the `transactions` collection, as built
by the ingestion pipeline and read back by `getDailySpending`.  The source's
`from`/`to` fields are named `fromAddr`/`toAddr` (`from` is a Lean keyword);
`timestamp` is epoch ms.  `solAmount` and `fee` are always present on records
written by the pipeline, so the evaluator's `?? 0` fallbacks are elided. -/
structure TransactionRecord where
  id : String
  signature : String
  txType : TransactionType
  description : String
  timestamp : Nat
  status : TxStatus
  fee : ℚ
  fromAddr : String
  toAddr : String
  solAmount : ℚ
  tokenAmount : Option ℚ
  tokenSymbol : Option String
  agentId : Option String
deriving DecidableEq

/-- Milliseconds in one UTC day. -/
def msPerDay : Nat := 86400000

/-- `Date.UTC(now.getUTCFullYear(), now.getUTCMonth(), now.getUTCDate())`:
start of the current UTC day of a given epoch-ms instant. -/
def startOfUtcDay (now : Nat) : Nat := now / msPerDay * msPerDay

/-- `loadPolicy` of `policyEngine.ts`: the `policies` query
`where agentId == agentId`, `where isActive == true`, `limit(1)` — the first
active policy of the agent, or `none`. -/
def loadPolicy (policies : List SpendingPolicy) (agentId : String) :
    Option SpendingPolicy :=
  policies.find? fun p => p.agentId == agentId && p.isActive

/-- `getDailySpending` of `policyEngine.ts`: filter the `transactions`
collection to this agent's successful records with timestamp at or after the
start of the current UTC day, then loop-accumulate `(solAmount ?? 0) +
(fee ?? 0)`. -/
def getDailySpending (transactions : List TransactionRecord)
    (agentId : String) (now : Nat) : ℚ :=
  let startOfDay := startOfUtcDay now
  let docs := transactions.filter fun t =>
    t.agentId == some agentId && t.status == TxStatus.success &&
      decide (startOfDay ≤ t.timestamp)
  docs.foldl (fun total data => total + (data.solAmount + data.fee)) 0

/-- JavaScript truthiness of the optional `programId` argument: present and
not the empty string. -/
def strTruthy : Option String → Bool
  | some s => s != ""
  | none => false

/-- `evaluateTransaction` of `policyEngine.ts`.  Checks, in order and
short-circuiting: missing policy (fail-safe), per-transaction limit, daily
aggregate limit, program allowlist (guarded by `programId &&
policy.allowlistedPrograms.length > 0`), approval threshold. -/
def evaluateTransaction (policies : List SpendingPolicy)
    (transactions : List TransactionRecord) (agentId : String)
    (txAmount : ℚ) (programId : Option String) (now : Nat) :
    PolicyEvaluation :=
  match loadPolicy policies agentId with
  | none =>
      { autoApproved := false, reason := Reason.noActivePolicy }
  | some policy =>
      if txAmount > policy.perTxLimitSol then
        { autoApproved := false, reason := Reason.perTxLimitExceeded }
      else
        let dailySpent := getDailySpending transactions agentId now
        if dailySpent + txAmount > policy.dailyLimitSol then
          { autoApproved := false, reason := Reason.dailyLimitExceeded }
        else if strTruthy programId && policy.allowlistedPrograms.length > 0 &&
            !(policy.allowlistedPrograms.contains (programId.getD "")) then
          { autoApproved := false, reason := Reason.programNotAllowlisted }
        else if txAmount > policy.requireApprovalAbove then
          { autoApproved := false, reason := Reason.aboveApprovalThreshold }
        else
          { autoApproved := true, reason := Reason.withinPolicyLimits }

/-- A registered agent (document of the `agents` collection).  `createdAt`
and `lastSeenAt` are epoch-ms timestamps. -/
structure Agent where
  id : String
  name : String
  walletAddress : String
  description : String
  status : AgentStatus
  apiKeyHash : String
  createdAt : Nat
  lastSeenAt : Nat
  ownerId : String
deriving DecidableEq

/-- A document of the `approvals` collection.  Optional JSON keys that the
creation handler spreads in conditionally (`respondedAt`, `targetProgram`,
`targetAddress`, `amount`, `tokenSymbol`) are `Option` fields, `none` when the
key is absent. -/
structure ApprovalRequest where
  id : String
  agentId : String
  agentName : String
  description : String
  status : ApprovalStatus
  createdAt : Nat
  expiresAt : Nat
  respondedAt : Option Nat
  txType : TransactionType
  estimatedSolCost : ℚ
  targetProgram : Option String
  targetAddress : Option String
  amount : Option ℚ
  tokenSymbol : Option String
  policyEvaluation : Reason
deriving DecidableEq

/-- `ApprovalRequestBody` of `approvalApi.ts`.  `estimatedSolCost` is an
`Option` so that the handler's `=== undefined` validation is expressible. -/
structure ApprovalRequestBody where
  description : String
  txType : TransactionType
  estimatedSolCost : Option ℚ
  targetProgram : Option String
  targetAddress : Option String
  amount : Option ℚ
  tokenSymbol : Option String
  expiresInMinutes : Option Nat
deriving DecidableEq

/-- Error responses of the HTTP surface, by status code. -/
inductive HttpError
  | badRequest
  | unauthorized
  | forbidden
  | notFound
  | internalError
deriving DecidableEq

/-- The HTTP status code carried by each error class. -/
def HttpError.statusCode : HttpError → Nat
  | HttpError.badRequest => 400
  | HttpError.unauthorized => 401
  | HttpError.forbidden => 403
  | HttpError.notFound => 404
  | HttpError.internalError => 500

/-- Success body of `POST /api/approvals/request`. -/
structure ApprovalResponse where
  approvalId : String
  status : ApprovalStatus
  autoApproved : Bool
  reason : Reason
deriving DecidableEq

/-- Fault injection for a handler run: no failure, a storage failure striking
before the approval document is persisted (policy read, daily-spend query, or
the `set` itself), or a failure striking inside the post-persist notification
step (`sendPushToOwner`'s own reads/writes can throw past its inner
try/catch).  Every failure is caught by the handler's outer `catch`, which
answers 500. -/
inductive FailPoint
  | noFailure
  | beforePersist
  | duringNotify
deriving DecidableEq

/-- JS truthiness filter for conditionally-spread string fields:
`...(body.x && { x: body.x })` stores the key only for a non-empty string. -/
def nonEmptyOpt : Option String → Option String
  | some s => if s = "" then none else some s
  | none => none

/-- `POST /api/approvals/request` of `approvalApi.ts` (after
`authenticateAgent` has resolved `agent`).  Validates the body, runs the
policy engine, persists the approval document (directly `approved` when
auto-approved, else `pending`), and — only when not auto-approved — notifies
the owner.  Returns the HTTP outcome and the resulting `approvals`
collection.  `newId` is the id minted by `collection("approvals").doc()`;
`now` is the handler's `new Date()` in epoch ms. -/
def requestApproval (policies : List SpendingPolicy)
    (transactions : List TransactionRecord)
    (approvals : List ApprovalRequest) (agent : Agent)
    (body : ApprovalRequestBody) (newId : String) (now : Nat)
    (fail : FailPoint) :
    Except HttpError ApprovalResponse × List ApprovalRequest :=
  if body.description = "" then
    (Except.error HttpError.badRequest, approvals)
  else
    match body.estimatedSolCost with
    | none => (Except.error HttpError.badRequest, approvals)
    | some cost =>
      if cost < 0 then
        (Except.error HttpError.badRequest, approvals)
      else if fail = FailPoint.beforePersist then
        (Except.error HttpError.internalError, approvals)
      else
        let evaluation :=
          evaluateTransaction policies transactions agent.id cost
            body.targetProgram now
        let expiresInMs := (body.expiresInMinutes.getD 15) * 60 * 1000
        let approvalData : ApprovalRequest :=
          { id := newId
            agentId := agent.id
            agentName := agent.name
            description := body.description
            status := if evaluation.autoApproved then ApprovalStatus.approved
              else ApprovalStatus.pending
            createdAt := now
            expiresAt := now + expiresInMs
            respondedAt := if evaluation.autoApproved then some now else none
            txType := body.txType
            estimatedSolCost := cost
            targetProgram := nonEmptyOpt body.targetProgram
            targetAddress := nonEmptyOpt body.targetAddress
            amount := body.amount
            tokenSymbol := nonEmptyOpt body.tokenSymbol
            policyEvaluation := evaluation.reason }
        let persisted := approvals ++ [approvalData]
        if !evaluation.autoApproved && fail = FailPoint.duringNotify then
          (Except.error HttpError.internalError, persisted)
        else
          (Except.ok
            { approvalId := newId
              status := approvalData.status
              autoApproved := evaluation.autoApproved
              reason := evaluation.reason },
           persisted)

/-- Look up an approval document by id (`collection("approvals").doc(id)`). -/
def findApproval (approvals : List ApprovalRequest) (approvalId : String) :
    Option ApprovalRequest :=
  approvals.find? fun r => r.id == approvalId

/-- `doc.ref.update({ status })`: rewrite only the status of the addressed
document. -/
def updateApprovalStatus (approvals : List ApprovalRequest)
    (approvalId : String) (status : ApprovalStatus) : List ApprovalRequest :=
  approvals.map fun r =>
    if r.id == approvalId then { r with status := status } else r

/-- Body of `GET /api/approvals/:id/status`. -/
structure StatusResponse where
  approvalId : String
  status : ApprovalStatus
  createdAt : Nat
  expiresAt : Nat
  respondedAt : Option Nat
deriving DecidableEq

/-- `GET /api/approvals/:id/status` of `approvalApi.ts`: 404 if the document
is missing, 403 if it belongs to another agent; a `pending` document past its
expiry (`new Date(expiresAt) < new Date()`) is persisted as `expired` and
reported as `expired` (with no `respondedAt` key); otherwise the stored
fields are reported unchanged. -/
def getApprovalStatus (approvals : List ApprovalRequest)
    (approvalId : String) (agentId : String) (now : Nat) :
    Except HttpError StatusResponse × List ApprovalRequest :=
  match findApproval approvals approvalId with
  | none => (Except.error HttpError.notFound, approvals)
  | some data =>
    if data.agentId ≠ agentId then
      (Except.error HttpError.forbidden, approvals)
    else if data.status = ApprovalStatus.pending ∧ data.expiresAt < now then
      (Except.ok
        { approvalId := data.id
          status := ApprovalStatus.expired
          createdAt := data.createdAt
          expiresAt := data.expiresAt
          respondedAt := none },
       updateApprovalStatus approvals approvalId ApprovalStatus.expired)
    else
      (Except.ok
        { approvalId := data.id
          status := data.status
          createdAt := data.createdAt
          expiresAt := data.expiresAt
          respondedAt := data.respondedAt },
       approvals)

/-- `respondToApproval` of `src/services/firebase.ts`: an unconditional
`updateDoc` that sets `status` (the caller passes `'approved'` or `'denied'`)
and stamps `respondedAt`, with no read of the stored status and no rejection
path. -/
def respondToApproval (approvals : List ApprovalRequest)
    (approvalId : String) (status : ApprovalStatus) (now : Nat) :
    List ApprovalRequest :=
  approvals.map fun r =>
    if r.id == approvalId then
      { r with status := status, respondedAt := some now }
    else r

/-- An entry of `nativeTransfers` on a Helius enhanced transaction; `amount`
is in lamports. -/
structure HeliusNativeTransfer where
  fromUserAccount : String
  toUserAccount : String
  amount : Nat
deriving DecidableEq

/-- An entry of `tokenTransfers` on a Helius enhanced transaction. -/
structure HeliusTokenTransfer where
  fromUserAccount : String
  toUserAccount : String
  fromTokenAccount : String
  toTokenAccount : String
  tokenAmount : ℚ
  mint : String
  tokenStandard : String
deriving DecidableEq

/-- `HeliusEnhancedTransaction` of `webhookHandler.ts`.  The `type` field is
named `rawType` (`type` clashes with Lean's universe keyword); `fee` is in
lamports, `timestamp` in Unix seconds, `transactionError` is the nullable
error string. -/
structure HeliusEnhancedTransaction where
  signature : String
  description : String
  rawType : String
  source : String
  fee : Nat
  feePayer : String
  timestamp : Nat
  nativeTransfers : List HeliusNativeTransfer
  tokenTransfers : List HeliusTokenTransfer
  transactionError : Option String
deriving DecidableEq

/-- ASCII upper-casing of a string, character by character — the effect of
`heliusType.toUpperCase()` on the indexer's raw type strings (which are
ASCII). -/
def strToUpper (s : String) : String := ⟨s.data.map Char.toUpper⟩

/-- `mapHeliusType` of `webhookHandler.ts`: the fixed raw-type → semantic-type
table, the `switch` rendered as the equivalent chain of equality tests on the
upper-cased raw type. -/
def mapHeliusType (heliusType : String) : TransactionType :=
  let normalized := strToUpper heliusType
  if normalized = "TRANSFER" ∨ normalized = "TOKEN_TRANSFER" then
    TransactionType.transfer
  else if normalized = "SWAP" then
    TransactionType.swap
  else if normalized = "STAKE_SOL" ∨ normalized = "STAKE_TOKEN" then
    TransactionType.stake
  else if normalized = "UNKNOWN" then
    TransactionType.unknown
  else
    TransactionType.program_interaction

/-- The agent-matching query of the webhook handler:
`where walletAddress in [from, to]`, `limit(1)` — the first agent whose
wallet address is one of the two counter-parties. -/
def matchAgent (agents : List Agent) (fromAddr toAddr : String) :
    Option Agent :=
  agents.find? fun a =>
    a.walletAddress == fromAddr || a.walletAddress == toAddr

/-- Lamports per SOL. -/
def lamportsPerSol : ℚ := 1000000000

/-- The per-event body of the webhook loop: derive the counter-party pair and
SOL amount from the first native transfer, fall back to the first token
transfer for `to`, build the normalized transaction document, and stamp it
with the id of the first matching agent (if any).  `txId` is the id minted by
`collection("transactions").doc()`. -/
def buildTxDoc (agents : List Agent) (tx : HeliusEnhancedTransaction)
    (txId : String) : TransactionRecord :=
  let fromAddr := tx.feePayer
  let toNative :=
    match tx.nativeTransfers with
    | t :: _ => t.toUserAccount
    | [] => ""
  let solAmount : ℚ :=
    match tx.nativeTransfers with
    | t :: _ => (t.amount : ℚ) / lamportsPerSol
    | [] => 0
  let toAddr :=
    match tx.tokenTransfers with
    | tt :: _ => if toNative = "" then tt.toUserAccount else toNative
    | [] => toNative
  { id := txId
    signature := tx.signature
    txType := mapHeliusType tx.rawType
    description := if tx.description = "" then tx.rawType ++ " transaction"
      else tx.description
    timestamp := tx.timestamp * 1000
    status := if strTruthy tx.transactionError then TxStatus.failed
      else TxStatus.success
    fee := (tx.fee : ℚ) / lamportsPerSol
    fromAddr := fromAddr
    toAddr := toAddr
    solAmount := solAmount
    tokenAmount := (tx.tokenTransfers.head?).map fun tt => tt.tokenAmount
    tokenSymbol := nonEmptyOpt ((tx.tokenTransfers.head?).map fun tt => tt.mint)
    agentId := (matchAgent agents fromAddr toAddr).map fun a => a.id }

/-- One notification-tally bump of the webhook loop: increment this agent's
count, or open a tally at 1. -/
def bumpTally (tallies : List (String × Nat)) (agentId : String) :
    List (String × Nat) :=
  match tallies.find? (fun kv => kv.1 == agentId) with
  | some _ => tallies.map fun kv =>
      if kv.1 == agentId then (kv.1, kv.2 + 1) else kv
  | none => tallies ++ [(agentId, 1)]

/-- Outcome of one webhook invocation: the transaction documents staged into
the batch (committed together by the single `batch.commit()`), and the
per-agent notification tallies accumulated for the post-commit fan-out.
The batched `lastSeenAt` refresh of matched agents and the best-effort push
dispatch are not claims of this development and are elided. -/
structure WebhookResult where
  staged : List TransactionRecord
  tallies : List (String × Nat)
deriving DecidableEq

/-- The body of the `for (const tx of transactions)` loop for one event.
An event is `none` when its processing threw (malformed payload or storage
failure): the `catch` logs it and stages nothing for it. -/
def webhookStep (agents : List Agent) (ids : Nat → String)
    (acc : WebhookResult) (ev : Option HeliusEnhancedTransaction) :
    WebhookResult :=
  match ev with
  | none => acc
  | some tx =>
    let doc := buildTxDoc agents tx (ids acc.staged.length)
    let tallies :=
      match doc.agentId with
      | some aid => bumpTally acc.tallies aid
      | none => acc.tallies
    { staged := acc.staged ++ [doc], tallies := tallies }

/-- `onHeliusWebhook` of `webhookHandler.ts` (after the method and
array-shape guards): iterate the batch, staging one normalized document per
successfully processed event — matched to an agent or not — and skipping
events whose processing threw; everything staged is then committed by the one
`batch.commit()`.  `ids` supplies the Firestore-minted document ids, indexed
by how many documents were staged before. -/
def onHeliusWebhook (agents : List Agent)
    (events : List (Option HeliusEnhancedTransaction)) (ids : Nat → String) :
    WebhookResult :=
  events.foldl (webhookStep agents ids) { staged := [], tallies := [] }

/-- `RegisterBody` of `approvalApi.ts`. -/
structure RegisterBody where
  name : String
  walletAddress : String
  description : Option String
  ownerId : String
deriving DecidableEq

/-- Membership in the character class `[1-9A-HJ-NP-Za-km-z]` of the Solana
base58 address regex. -/
def isBase58Char (c : Char) : Bool :=
  (decide ('1' ≤ c) && decide (c ≤ '9')) ||
  (decide ('A' ≤ c) && decide (c ≤ 'H')) ||
  (decide ('J' ≤ c) && decide (c ≤ 'N')) ||
  (decide ('P' ≤ c) && decide (c ≤ 'Z')) ||
  (decide ('a' ≤ c) && decide (c ≤ 'k')) ||
  (decide ('m' ≤ c) && decide (c ≤ 'z'))

/-- The wallet-address validation `/^[1-9A-HJ-NP-Za-km-z]{32,44}$/.test(..)`. -/
def isValidSolanaAddress (s : String) : Bool :=
  32 ≤ s.length && s.length ≤ 44 && s.data.all isBase58Char

/-- The default `SpendingPolicy` created alongside every registered agent
(`approvalApi.ts`, registration handler): daily limit 1.0 SOL, per-tx limit
0.5 SOL, empty allowlist, approval threshold 0.1 SOL, active. -/
def defaultPolicyFor (agentId policyId : String) (now : Nat) :
    SpendingPolicy :=
  { id := policyId
    agentId := agentId
    dailyLimitSol := 1
    perTxLimitSol := 1 / 2
    allowlistedPrograms := []
    requireApprovalAbove := 1 / 10
    isActive := true
    updatedAt := now }

/-- Success body of `POST /api/agents/register`: the new agent id and the
one-time plaintext API key. -/
structure RegisterResponse where
  agentId : String
  apiKey : String
deriving DecidableEq

/-- `POST /api/agents/register` of `approvalApi.ts`: validate the body and
the wallet-address format, require the owner to exist, then create the agent
document, its default active policy, and the owner's membership update in one
atomic batch.  `users` is the set of existing user ids; `newAgentId` /
`newPolicyId` are the minted document ids; `apiKey` / `apiKeyHash` stand for
`generateApiKey()` and its SHA-256 digest (the digest function itself is not
modelled).  `fail = true` injects a storage failure anywhere in the run: the
batch is atomic, so the outer `catch` answers 500 with no store change. -/
def registerAgent (users : List String) (agents : List Agent)
    (policies : List SpendingPolicy) (body : RegisterBody)
    (newAgentId newPolicyId apiKey apiKeyHash : String) (now : Nat)
    (fail : Bool) :
    Except HttpError RegisterResponse × (List Agent × List SpendingPolicy) :=
  if body.name = "" ∨ body.walletAddress = "" ∨ body.ownerId = "" then
    (Except.error HttpError.badRequest, (agents, policies))
  else if !isValidSolanaAddress body.walletAddress then
    (Except.error HttpError.badRequest, (agents, policies))
  else if !(users.contains body.ownerId) then
    (Except.error HttpError.notFound, (agents, policies))
  else if fail then
    (Except.error HttpError.internalError, (agents, policies))
  else
    let agentData : Agent :=
      { id := newAgentId
        name := body.name
        walletAddress := body.walletAddress
        description := body.description.getD ""
        status := AgentStatus.active
        apiKeyHash := apiKeyHash
        createdAt := now
        lastSeenAt := now
        ownerId := body.ownerId }
    (Except.ok { agentId := newAgentId, apiKey := apiKey },
     (agents ++ [agentData],
      policies ++ [defaultPolicyFor newAgentId newPolicyId now]))

/-! ### Concrete sample data

Small concrete stores used by the witness and counterexample theorems below.
Integer-valued rationals are used so that the kernel can evaluate the
arithmetic. -/

/-- A sample active policy for agent `agent-1`: per-tx limit 2 SOL, daily
limit 3 SOL, empty allowlist, approval threshold 1 SOL. -/
def polEx : SpendingPolicy :=
  { id := "pol-1"
    agentId := "agent-1"
    dailyLimitSol := 3
    perTxLimitSol := 2
    allowlistedPrograms := []
    requireApprovalAbove := 1
    isActive := true
    updatedAt := 0 }

/-- Like `polEx` but with a non-empty program allowlist. -/
def polAllowEx : SpendingPolicy :=
  { polEx with id := "pol-2", allowlistedPrograms := ["ProgA"] }

/-- A successful ledger record of `agent-1` dated at the epoch:
2 SOL moved plus a 1 SOL fee. -/
def txRecEx : TransactionRecord :=
  { id := "tx-1"
    signature := "sig-1"
    txType := TransactionType.transfer
    description := "transfer"
    timestamp := 0
    status := TxStatus.success
    fee := 1
    fromAddr := "W1"
    toAddr := "W2"
    solAmount := 2
    tokenAmount := none
    tokenSymbol := none
    agentId := some "agent-1" }

/-- A sample registered agent. -/
def agentEx : Agent :=
  { id := "agent-1"
    name := "Bot One"
    walletAddress := "A1B2C3D4E5F6G7H8J9K1L2M3N4P5Q6R7"
    description := ""
    status := AgentStatus.active
    apiKeyHash := "hash-1"
    createdAt := 0
    lastSeenAt := 0
    ownerId := "owner-1"
  }

/-- A sample approval-request body: 1 SOL estimated cost, no target program,
default TTL. -/
def bodyEx : ApprovalRequestBody :=
  { description := "Buy tokens"
    txType := TransactionType.transfer
    estimatedSolCost := some 1
    targetProgram := none
    targetAddress := none
    amount := none
    tokenSymbol := none
    expiresInMinutes := none }

/-- A stored approval request of `agent-1`, pending, created at 0 and
expiring at 1000 ms. -/
def reqPendingEx : ApprovalRequest :=
  { id := "appr-1"
    agentId := "agent-1"
    agentName := "Bot One"
    description := "Buy tokens"
    status := ApprovalStatus.pending
    createdAt := 0
    expiresAt := 1000
    respondedAt := none
    txType := TransactionType.transfer
    estimatedSolCost := 1
    targetProgram := none
    targetAddress := none
    amount := none
    tokenSymbol := none
    policyEvaluation := Reason.noActivePolicy }

/-- The same stored request after lazy expiry. -/
def reqExpiredEx : ApprovalRequest :=
  { reqPendingEx with status := ApprovalStatus.expired }

/-- A second stored approval request, unrelated to `appr-1`. -/
def reqOtherEx : ApprovalRequest :=
  { reqPendingEx with id := "appr-2", description := "Swap tokens" }

/-- A sample registration body with a well-formed 32-character base58 wallet
address. -/
def regBodyEx : RegisterBody :=
  { name := "Bot One"
    walletAddress := "A1B2C3D4E5F6G7H8J9K1L2M3N4P5Q6R7"
    description := none
    ownerId := "owner-1" }

/-! ### Helper lemmas -/

/-- Accumulating a sum over a loop equals the sum of the mapped list. -/
theorem foldl_add_eq_sum {α : Type} (f : α → ℚ) (l : List α) (init : ℚ) :
    l.foldl (fun total a => total + f a) init = init + (l.map f).sum := by
  induction l generalizing init with
  | nil => simp
  | cons x xs ih => simp [ih, add_assoc]

/-- Case analysis on `evaluateTransaction` once a policy is loaded, one case
per check in source order.  The allowlist condition is kept in its boolean
source form. -/
theorem evalTx_cases (policies : List SpendingPolicy)
    (transactions : List TransactionRecord) (agentId : String)
    (txAmount : ℚ) (programId : Option String) (now : Nat)
    (policy : SpendingPolicy)
    (hpol : loadPolicy policies agentId = some policy) :
    (policy.perTxLimitSol < txAmount →
      evaluateTransaction policies transactions agentId txAmount programId now
        = { autoApproved := false, reason := Reason.perTxLimitExceeded })
    ∧ (txAmount ≤ policy.perTxLimitSol →
      policy.dailyLimitSol < getDailySpending transactions agentId now + txAmount →
      evaluateTransaction policies transactions agentId txAmount programId now
        = { autoApproved := false, reason := Reason.dailyLimitExceeded })
    ∧ (txAmount ≤ policy.perTxLimitSol →
      getDailySpending transactions agentId now + txAmount ≤ policy.dailyLimitSol →
      (strTruthy programId && policy.allowlistedPrograms.length > 0 &&
        !(policy.allowlistedPrograms.contains (programId.getD ""))) = true →
      evaluateTransaction policies transactions agentId txAmount programId now
        = { autoApproved := false, reason := Reason.programNotAllowlisted })
    ∧ (txAmount ≤ policy.perTxLimitSol →
      getDailySpending transactions agentId now + txAmount ≤ policy.dailyLimitSol →
      (strTruthy programId && policy.allowlistedPrograms.length > 0 &&
        !(policy.allowlistedPrograms.contains (programId.getD ""))) = false →
      policy.requireApprovalAbove < txAmount →
      evaluateTransaction policies transactions agentId txAmount programId now
        = { autoApproved := false, reason := Reason.aboveApprovalThreshold })
    ∧ (txAmount ≤ policy.perTxLimitSol →
      getDailySpending transactions agentId now + txAmount ≤ policy.dailyLimitSol →
      (strTruthy programId && policy.allowlistedPrograms.length > 0 &&
        !(policy.allowlistedPrograms.contains (programId.getD ""))) = false →
      txAmount ≤ policy.requireApprovalAbove →
      evaluateTransaction policies transactions agentId txAmount programId now
        = { autoApproved := true, reason := Reason.withinPolicyLimits }) := by
  refine ⟨fun h1 => ?_, fun h1 h2 => ?_, fun h1 h2 h3 => ?_,
    fun h1 h2 h3 h4 => ?_, fun h1 h2 h3 h4 => ?_⟩ <;>
    simp only [evaluateTransaction, hpol]
  · rw [if_pos h1]
  · rw [if_neg (not_lt.mpr h1), if_pos h2]
  · rw [if_neg (not_lt.mpr h1), if_neg (not_lt.mpr h2), if_pos h3]
  · rw [if_neg (not_lt.mpr h1), if_neg (not_lt.mpr h2),
      if_neg (by rw [h3]; simp), if_pos h4]
  · rw [if_neg (not_lt.mpr h1), if_neg (not_lt.mpr h2),
      if_neg (by rw [h3]; simp), if_neg (not_lt.mpr h4)]

/-! ### Claims -/

/-- C1: for every agent without an active spending policy,
`evaluateTransaction` returns `autoApproved = false` with the fail-safe
reason, for every proposed amount and every optional target program. -/
theorem evaluate_no_policy_fail_closed (policies : List SpendingPolicy)
    (transactions : List TransactionRecord) (agentId : String)
    (txAmount : ℚ) (programId : Option String) (now : Nat)
    (hnone : loadPolicy policies agentId = none) :
    evaluateTransaction policies transactions agentId txAmount programId now
      = { autoApproved := false, reason := Reason.noActivePolicy } := by
  simp only [evaluateTransaction, hnone]

/-- Witness for C1 at a concrete input: the empty policy store. -/
theorem evaluate_no_policy_fail_closed_witness :
    evaluateTransaction [] [] "agent-1" 5 (some "ProgA") 0
      = { autoApproved := false, reason := Reason.noActivePolicy } :=
  evaluate_no_policy_fail_closed [] [] "agent-1" 5 (some "ProgA") 0 rfl

/-- C2 counterexample: the claim as stated fails for a supplied target
program that is the empty string.  With an active policy whose allowlist is
`["ProgA"]`, a 1 SOL transaction naming target program `""` satisfies the
per-tx, daily and threshold conditions, the target is supplied, the allowlist
is non-empty and does not contain it — the claim demands
`autoApproved = false` — yet the engine auto-approves, because the source's
`programId &&` guard treats the empty string as absent. -/
theorem evaluate_empty_target_cex :
    (some "" : Option String) ≠ none
    ∧ polAllowEx.allowlistedPrograms ≠ []
    ∧ polAllowEx.allowlistedPrograms.contains "" = false
    ∧ loadPolicy [polAllowEx] "agent-1" = some polAllowEx
    ∧ (1 : ℚ) ≤ polAllowEx.perTxLimitSol
    ∧ getDailySpending [] "agent-1" 0 + 1 ≤ polAllowEx.dailyLimitSol
    ∧ (1 : ℚ) ≤ polAllowEx.requireApprovalAbove
    ∧ evaluateTransaction [polAllowEx] [] "agent-1" 1 (some "") 0
        = { autoApproved := true, reason := Reason.withinPolicyLimits } := by
  refine ⟨by decide, by decide, by decide, rfl, ?_, ?_, ?_, ?_⟩
  · norm_num [polAllowEx, polEx]
  · norm_num [polAllowEx, polEx, getDailySpending]
  · norm_num [polAllowEx, polEx]
  · norm_num [evaluateTransaction, loadPolicy, polAllowEx, polEx,
      getDailySpending, strTruthy]

/-- C2 (amended): with an active policy and a non-negative amount `a`, if
`a ≤ perTxLimit`, `dailySpent + a ≤ dailyLimit`, the target program is absent
*or empty* or the allowlist is empty or contains it, and
`a ≤ requireApprovalAbove`, then the engine auto-approves; violating any one
condition yields `autoApproved = false` with the reason of the first violated
check in the fixed order per-tx → daily → allowlist → threshold
(short-circuiting, strict comparisons). -/
theorem evaluateTransaction_check_order (policies : List SpendingPolicy)
    (transactions : List TransactionRecord) (agentId : String)
    (txAmount : ℚ) (programId : Option String) (now : Nat)
    (policy : SpendingPolicy)
    (hpol : loadPolicy policies agentId = some policy)
    (_hnn : 0 ≤ txAmount) :
    (policy.perTxLimitSol < txAmount →
      evaluateTransaction policies transactions agentId txAmount programId now
        = { autoApproved := false, reason := Reason.perTxLimitExceeded })
    ∧ (txAmount ≤ policy.perTxLimitSol →
      policy.dailyLimitSol < getDailySpending transactions agentId now + txAmount →
      evaluateTransaction policies transactions agentId txAmount programId now
        = { autoApproved := false, reason := Reason.dailyLimitExceeded })
    ∧ (txAmount ≤ policy.perTxLimitSol →
      getDailySpending transactions agentId now + txAmount ≤ policy.dailyLimitSol →
      strTruthy programId = true →
      policy.allowlistedPrograms ≠ [] →
      policy.allowlistedPrograms.contains (programId.getD "") = false →
      evaluateTransaction policies transactions agentId txAmount programId now
        = { autoApproved := false, reason := Reason.programNotAllowlisted })
    ∧ (txAmount ≤ policy.perTxLimitSol →
      getDailySpending transactions agentId now + txAmount ≤ policy.dailyLimitSol →
      (strTruthy programId = false ∨ policy.allowlistedPrograms = [] ∨
        policy.allowlistedPrograms.contains (programId.getD "") = true) →
      policy.requireApprovalAbove < txAmount →
      evaluateTransaction policies transactions agentId txAmount programId now
        = { autoApproved := false, reason := Reason.aboveApprovalThreshold })
    ∧ (txAmount ≤ policy.perTxLimitSol →
      getDailySpending transactions agentId now + txAmount ≤ policy.dailyLimitSol →
      (strTruthy programId = false ∨ policy.allowlistedPrograms = [] ∨
        policy.allowlistedPrograms.contains (programId.getD "") = true) →
      txAmount ≤ policy.requireApprovalAbove →
      evaluateTransaction policies transactions agentId txAmount programId now
        = { autoApproved := true, reason := Reason.withinPolicyLimits }) := by
  have hc := evalTx_cases policies transactions agentId txAmount programId now
    policy hpol
  refine ⟨hc.1, hc.2.1, fun h1 h2 h3 h4 h5 => ?_, fun h1 h2 h3 h4 => ?_,
    fun h1 h2 h3 h4 => ?_⟩
  · refine hc.2.2.1 h1 h2 ?_
    rw [h3, h5]
    simp [List.length_pos.mpr h4]
  · exact hc.2.2.2.1 h1 h2
      (by rcases h3 with h | h | h <;> rw [h] <;> simp) h4
  · exact hc.2.2.2.2 h1 h2
      (by rcases h3 with h | h | h <;> rw [h] <;> simp) h4

/-- Witness for C2 (amended) at a concrete input: under `polEx` a 1 SOL
transaction with no target program and no prior spend is auto-approved. -/
theorem evaluateTransaction_check_order_witness :
    evaluateTransaction [polEx] [] "agent-1" 1 none 0
      = { autoApproved := true, reason := Reason.withinPolicyLimits } :=
  (evaluateTransaction_check_order [polEx] [] "agent-1" 1 none 0 polEx rfl
      (by norm_num)).2.2.2.2
    (by norm_num [polEx]) (by norm_num [polEx, getDailySpending])
    (Or.inl rfl) (by norm_num [polEx])

/-- C3: the daily spend total used by the evaluator is the sum of
`solAmount + fee` over exactly the agent's successful records dated in the
current UTC day, and the daily-limit check compares the projected
post-transaction total against the daily limit strictly. -/
theorem getDailySpending_sum (transactions : List TransactionRecord)
    (agentId : String) (now : Nat) :
    getDailySpending transactions agentId now
      = ((transactions.filter fun t =>
            t.agentId == some agentId && t.status == TxStatus.success &&
              decide (startOfUtcDay now ≤ t.timestamp)).map
          fun t => t.solAmount + t.fee).sum
    ∧ ∀ (policies : List SpendingPolicy) (policy : SpendingPolicy)
        (txAmount : ℚ) (programId : Option String),
        loadPolicy policies agentId = some policy →
        txAmount ≤ policy.perTxLimitSol →
        (policy.dailyLimitSol <
            getDailySpending transactions agentId now + txAmount ↔
          (evaluateTransaction policies transactions agentId txAmount
              programId now).reason = Reason.dailyLimitExceeded) := by
  constructor
  · simp [getDailySpending, foldl_add_eq_sum]
  · intro policies policy txAmount programId hpol hle
    have hc := evalTx_cases policies transactions agentId txAmount programId
      now policy hpol
    constructor
    · intro hgt
      rw [hc.2.1 hle hgt]
    · intro hr
      by_contra hgt
      push_neg at hgt
      rcases hb : (strTruthy programId && policy.allowlistedPrograms.length > 0
          && !(policy.allowlistedPrograms.contains (programId.getD ""))) with _ | _
      · rcases le_or_lt txAmount policy.requireApprovalAbove with h5 | h5
        · rw [hc.2.2.2.2 hle hgt hb h5] at hr
          exact absurd hr (by decide)
        · rw [hc.2.2.2.1 hle hgt hb h5] at hr
          exact absurd hr (by decide)
      · rw [hc.2.2.1 hle hgt hb] at hr
        exact absurd hr (by decide)

/-- Witness for C3 at a concrete input: with 3 SOL already spent today under
`polEx` (daily limit 3), a further 1 SOL proposal projects to 4 SOL and the
evaluator reports the daily-limit reason. -/
theorem getDailySpending_sum_witness :
    (evaluateTransaction [polEx] [txRecEx] "agent-1" 1 none 0).reason
      = Reason.dailyLimitExceeded :=
  ((getDailySpending_sum [txRecEx] "agent-1" 0).2 [polEx] polEx 1 none rfl
      (by norm_num [polEx])).mp
    (by norm_num [getDailySpending, txRecEx, polEx, startOfUtcDay, msPerDay])

/-- Looking up by id after mapping an id-preserving rewrite over exactly the
documents with that id finds the rewritten document. -/
theorem find?_map_guard (f : ApprovalRequest → ApprovalRequest)
    (hf : ∀ r, (f r).id = r.id) (approvalId : String)
    (l : List ApprovalRequest) :
    (l.map fun r => if r.id == approvalId then f r else r).find?
        (fun r => r.id == approvalId)
      = (l.find? fun r => r.id == approvalId).map f := by
  induction l with
  | nil => rfl
  | cons x xs ih =>
    simp only [List.map_cons]
    cases hx : (x.id == approvalId) with
    | false =>
      rw [if_neg (by decide : ¬(false = true))]
      have hhead : List.find? (fun r => r.id == approvalId)
          (x :: (xs.map fun r => if r.id == approvalId then f r else r))
          = List.find? (fun r => r.id == approvalId)
              (xs.map fun r => if r.id == approvalId then f r else r) := by
        simp [List.find?, hx]
      have hrhs : List.find? (fun r => r.id == approvalId) (x :: xs)
          = List.find? (fun r => r.id == approvalId) xs := by
        simp [List.find?, hx]
      rw [hhead, hrhs, ih]
    | true =>
      rw [if_pos (rfl : true = true)]
      have hhead : List.find? (fun r => r.id == approvalId)
          (f x :: (xs.map fun r => if r.id == approvalId then f r else r))
          = some (f x) := by
        simp [List.find?, hf, hx]
      have hrhs : List.find? (fun r => r.id == approvalId) (x :: xs)
          = some x := by
        simp [List.find?, hx]
      rw [hhead, hrhs]
      rfl

/-- A status-only update addressed by id rewrites exactly the looked-up
document. -/
theorem findApproval_update (approvals : List ApprovalRequest)
    (approvalId : String) (status : ApprovalStatus) :
    findApproval (updateApprovalStatus approvals approvalId status) approvalId
      = (findApproval approvals approvalId).map
          fun r => { r with status := status } :=
  find?_map_guard (fun r => { r with status := status }) (fun _ => rfl)
    approvalId approvals

/-- C4: when creation is not blocked by validation and no failure strikes,
the persisted `ApprovalRequest` is created directly in `approved` with
`respondedAt` equal to the creation timestamp when the Policy Evaluator
auto-approves, and in `pending` with no `respondedAt` when human review is
required; either way `expiresAt` is the creation time plus the requested TTL
(default 15 minutes). -/
theorem requestApproval_creation (policies : List SpendingPolicy)
    (transactions : List TransactionRecord)
    (approvals : List ApprovalRequest) (agent : Agent)
    (body : ApprovalRequestBody) (newId : String) (now : Nat) (cost : ℚ)
    (hdesc : body.description ≠ "")
    (hcost : body.estimatedSolCost = some cost) (hnn : 0 ≤ cost) :
    ∃ req : ApprovalRequest,
      (requestApproval policies transactions approvals agent body newId now
          FailPoint.noFailure).2 = approvals ++ [req]
      ∧ (requestApproval policies transactions approvals agent body newId now
          FailPoint.noFailure).1
        = Except.ok
            { approvalId := newId, status := req.status,
              autoApproved := (evaluateTransaction policies transactions
                agent.id cost body.targetProgram now).autoApproved,
              reason := (evaluateTransaction policies transactions agent.id
                cost body.targetProgram now).reason }
      ∧ req.status
        = (if (evaluateTransaction policies transactions agent.id cost
            body.targetProgram now).autoApproved then ApprovalStatus.approved
          else ApprovalStatus.pending)
      ∧ req.respondedAt
        = (if (evaluateTransaction policies transactions agent.id cost
            body.targetProgram now).autoApproved then some now else none)
      ∧ req.createdAt = now
      ∧ req.expiresAt = now + (body.expiresInMinutes.getD 15) * 60 * 1000 := by
  simp only [requestApproval, hcost]
  rw [if_neg hdesc, if_neg (not_lt.mpr hnn),
    if_neg (by decide : ¬(FailPoint.noFailure = FailPoint.beforePersist))]
  have hnotify : decide (FailPoint.noFailure = FailPoint.duringNotify)
      = false := rfl
  rw [hnotify, Bool.and_false, if_neg (by decide : ¬(false = true))]
  exact ⟨_, rfl, rfl, rfl, rfl, rfl, rfl⟩

/-- Witness for C4 at a concrete input: with no policy configured the sample
request is created `pending`, with no `respondedAt` and a 15-minute expiry. -/
theorem requestApproval_creation_witness :
    ∃ req : ApprovalRequest,
      (requestApproval [] [] [] agentEx bodyEx "appr-9" 0
          FailPoint.noFailure).2 = [] ++ [req]
      ∧ (requestApproval [] [] [] agentEx bodyEx "appr-9" 0
          FailPoint.noFailure).1
        = Except.ok
            { approvalId := "appr-9", status := req.status,
              autoApproved := (evaluateTransaction [] [] agentEx.id 1
                bodyEx.targetProgram 0).autoApproved,
              reason := (evaluateTransaction [] [] agentEx.id 1
                bodyEx.targetProgram 0).reason }
      ∧ req.status
        = (if (evaluateTransaction [] [] agentEx.id 1 bodyEx.targetProgram
            0).autoApproved then ApprovalStatus.approved
          else ApprovalStatus.pending)
      ∧ req.respondedAt
        = (if (evaluateTransaction [] [] agentEx.id 1 bodyEx.targetProgram
            0).autoApproved then some 0 else none)
      ∧ req.createdAt = 0
      ∧ req.expiresAt = 0 + (bodyEx.expiresInMinutes.getD 15) * 60 * 1000 :=
  requestApproval_creation [] [] [] agentEx bodyEx "appr-9" 0 1
    (by decide) rfl (by norm_num)

/-- C5: a poll of a stored `pending` request past its expiry persists
`expired` and answers `expired`; after that, every subsequent poll answers
`expired` and changes nothing; and a poll of an `approved`, `denied` or
`expired` request answers the stored status and `respondedAt` unchanged,
never transitioning the request. -/
theorem getApprovalStatus_lazy_expiry (approvals : List ApprovalRequest)
    (approvalId agentId : String) (now : Nat) (r : ApprovalRequest)
    (hfind : findApproval approvals approvalId = some r)
    (hown : r.agentId = agentId) :
    (r.status = ApprovalStatus.pending → r.expiresAt < now →
      (getApprovalStatus approvals approvalId agentId now).1
          = Except.ok { approvalId := r.id, status := ApprovalStatus.expired,
                        createdAt := r.createdAt, expiresAt := r.expiresAt,
                        respondedAt := none }
        ∧ findApproval (getApprovalStatus approvals approvalId agentId now).2
            approvalId = some { r with status := ApprovalStatus.expired }
        ∧ ∀ now' : Nat,
            (getApprovalStatus
                (getApprovalStatus approvals approvalId agentId now).2
                approvalId agentId now').1
              = Except.ok { approvalId := r.id,
                            status := ApprovalStatus.expired,
                            createdAt := r.createdAt, expiresAt := r.expiresAt,
                            respondedAt := r.respondedAt }
            ∧ (getApprovalStatus
                (getApprovalStatus approvals approvalId agentId now).2
                approvalId agentId now').2
              = (getApprovalStatus approvals approvalId agentId now).2)
    ∧ (r.status ≠ ApprovalStatus.pending →
        (getApprovalStatus approvals approvalId agentId now).1
            = Except.ok { approvalId := r.id, status := r.status,
                          createdAt := r.createdAt, expiresAt := r.expiresAt,
                          respondedAt := r.respondedAt }
          ∧ (getApprovalStatus approvals approvalId agentId now).2
            = approvals)
    ∧ (r.status = ApprovalStatus.pending → ¬ r.expiresAt < now →
        (getApprovalStatus approvals approvalId agentId now).1
            = Except.ok { approvalId := r.id, status := r.status,
                          createdAt := r.createdAt, expiresAt := r.expiresAt,
                          respondedAt := r.respondedAt }
          ∧ (getApprovalStatus approvals approvalId agentId now).2
            = approvals) := by
  refine ⟨fun h1 h2 => ?_, fun h1 => ?_, fun h1 h2 => ?_⟩
  · have hres : getApprovalStatus approvals approvalId agentId now
        = (Except.ok { approvalId := r.id, status := ApprovalStatus.expired,
                       createdAt := r.createdAt, expiresAt := r.expiresAt,
                       respondedAt := none },
           updateApprovalStatus approvals approvalId
             ApprovalStatus.expired) := by
      simp only [getApprovalStatus, hfind]
      rw [if_neg (by simp [hown]), if_pos ⟨h1, h2⟩]
    have hupd : findApproval
        (updateApprovalStatus approvals approvalId ApprovalStatus.expired)
        approvalId = some { r with status := ApprovalStatus.expired } := by
      rw [findApproval_update, hfind]
      rfl
    rw [hres]
    refine ⟨rfl, hupd, fun now' => ?_⟩
    have hres2 : getApprovalStatus
        (updateApprovalStatus approvals approvalId ApprovalStatus.expired)
        approvalId agentId now'
        = (Except.ok { approvalId := r.id, status := ApprovalStatus.expired,
                       createdAt := r.createdAt, expiresAt := r.expiresAt,
                       respondedAt := r.respondedAt },
           updateApprovalStatus approvals approvalId
             ApprovalStatus.expired) := by
      simp only [getApprovalStatus, hupd]
      rw [if_neg (by simp [hown]),
        if_neg (by rintro ⟨hp, _⟩; exact absurd hp (by decide))]
    rw [hres2]
    exact ⟨rfl, rfl⟩
  · have hres : getApprovalStatus approvals approvalId agentId now
        = (Except.ok { approvalId := r.id, status := r.status,
                       createdAt := r.createdAt, expiresAt := r.expiresAt,
                       respondedAt := r.respondedAt }, approvals) := by
      simp only [getApprovalStatus, hfind]
      rw [if_neg (by simp [hown]), if_neg (by rintro ⟨hp, _⟩; exact h1 hp)]
    rw [hres]
    exact ⟨rfl, rfl⟩
  · have hres : getApprovalStatus approvals approvalId agentId now
        = (Except.ok { approvalId := r.id, status := r.status,
                       createdAt := r.createdAt, expiresAt := r.expiresAt,
                       respondedAt := r.respondedAt }, approvals) := by
      simp only [getApprovalStatus, hfind]
      rw [if_neg (by simp [hown]), if_neg (by rintro ⟨_, hlt⟩; exact h2 hlt)]
    rw [hres]
    exact ⟨rfl, rfl⟩

/-- Witness for C5 at a concrete input: the sample pending request (expiry
1000 ms) polled at 2000 ms answers `expired`, and a second poll of the
updated store at 3000 ms answers `expired` again. -/
theorem getApprovalStatus_lazy_expiry_witness :
    (getApprovalStatus [reqPendingEx] "appr-1" "agent-1" 2000).1
      = Except.ok { approvalId := "appr-1", status := ApprovalStatus.expired,
                    createdAt := 0, expiresAt := 1000, respondedAt := none }
    ∧ (getApprovalStatus
        (getApprovalStatus [reqPendingEx] "appr-1" "agent-1" 2000).2
        "appr-1" "agent-1" 3000).1
      = Except.ok { approvalId := "appr-1", status := ApprovalStatus.expired,
                    createdAt := 0, expiresAt := 1000, respondedAt := none } := by
  have h := getApprovalStatus_lazy_expiry [reqPendingEx] "appr-1" "agent-1"
    2000 reqPendingEx rfl rfl
  have h1 := h.1 rfl (by decide)
  exact ⟨h1.1, (h1.2.2 3000).1⟩

/-- C6 counterexample: the claim as stated fails: a human response issued
against a stored request whose status is already `expired` is not rejected —
`respondToApproval` unconditionally overwrites the stored status and
`respondedAt`, moving `appr-1` from `expired` to `approved`. -/
theorem respondToApproval_no_reject_cex :
    reqExpiredEx.status ≠ ApprovalStatus.pending
    ∧ findApproval (respondToApproval [reqExpiredEx] "appr-1"
        ApprovalStatus.approved 5000) "appr-1"
      = some { reqExpiredEx with
               status := ApprovalStatus.approved,
               respondedAt := some 5000 }
    ∧ respondToApproval [reqExpiredEx] "appr-1" ApprovalStatus.approved 5000
      ≠ [reqExpiredEx] := by
  refine ⟨by decide, rfl, by decide⟩

/-- C6 (amended): `respondToApproval` performs an unconditional overwrite: it
sets the addressed request's status to the chosen disposition and stamps
`respondedAt` with the decision time whatever the stored status was, and
leaves every other request unchanged.  Only-from-`pending` responding is
enforced solely by the approval screen listing just the requests it observed
as `pending`, not by the respond operation itself. -/
theorem respondToApproval_overwrites (approvals : List ApprovalRequest)
    (approvalId : String) (status : ApprovalStatus) (now : Nat) :
    findApproval (respondToApproval approvals approvalId status now)
        approvalId
      = ((findApproval approvals approvalId).map
          fun r => { r with status := status, respondedAt := some now })
    ∧ ∀ r ∈ approvals, r.id ≠ approvalId →
        r ∈ respondToApproval approvals approvalId status now := by
  constructor
  · exact find?_map_guard
      (fun r => { r with status := status, respondedAt := some now })
      (fun _ => rfl) approvalId approvals
  · intro r hr hne
    exact List.mem_map.mpr ⟨r, hr, by simp [hne]⟩

/-- Witness for C6 (amended) at a concrete input: responding `approved` to
`appr-1` overwrites the expired sample request and leaves `appr-2` alone. -/
theorem respondToApproval_overwrites_witness :
    findApproval (respondToApproval [reqExpiredEx, reqOtherEx] "appr-1"
        ApprovalStatus.approved 5000) "appr-1"
      = some { reqExpiredEx with
               status := ApprovalStatus.approved,
               respondedAt := some 5000 }
    ∧ reqOtherEx ∈ respondToApproval [reqExpiredEx, reqOtherEx] "appr-1"
        ApprovalStatus.approved 5000 := by
  have h := respondToApproval_overwrites [reqExpiredEx, reqOtherEx] "appr-1"
    ApprovalStatus.approved 5000
  exact ⟨h.1.trans (by decide), h.2 reqOtherEx (by decide) (by decide)⟩

/-- C7 counterexample: the claim as stated fails for approval creation: with
no policy configured (so the request needs human review and the owner is
notified), a failure striking inside the post-persist notification step is
surfaced as a 500-class error, yet the created `ApprovalRequest` remains
persisted — the operation is not atomic across the notification step. -/
theorem requestApproval_notify_failure_cex :
    (requestApproval [] [] [] agentEx bodyEx "appr-9" 0
        FailPoint.duringNotify).1 = Except.error HttpError.internalError
    ∧ (requestApproval [] [] [] agentEx bodyEx "appr-9" 0
        FailPoint.duringNotify).2 ≠ ([] : List ApprovalRequest)
    ∧ ((requestApproval [] [] [] agentEx bodyEx "appr-9" 0
        FailPoint.duringNotify).2).length = 1 := by
  refine ⟨rfl, by decide, rfl⟩

/-- C7 (amended): a failure striking before the approval document is
persisted yields a 500-class error with the approvals collection unchanged,
and a failed registration (one atomic batch) yields a 500-class error with no
agent and no policy persisted; but a failure striking during the post-persist
owner notification of a non-auto-approved request yields a 500-class error
with the created request still persisted. -/
theorem failure_atomicity (policies : List SpendingPolicy)
    (transactions : List TransactionRecord)
    (approvals : List ApprovalRequest) (agent : Agent)
    (body : ApprovalRequestBody) (newId : String) (now : Nat) (cost : ℚ)
    (hdesc : body.description ≠ "")
    (hcost : body.estimatedSolCost = some cost) (hnn : 0 ≤ cost)
    (users : List String) (agents : List Agent) (regBody : RegisterBody)
    (naid npid key keyHash : String) (nowR : Nat)
    (hname : regBody.name ≠ "")
    (hw : isValidSolanaAddress regBody.walletAddress = true)
    (howner : users.contains regBody.ownerId = true)
    (hone : regBody.ownerId ≠ "") :
    ((requestApproval policies transactions approvals agent body newId now
        FailPoint.beforePersist).1 = Except.error HttpError.internalError
      ∧ (requestApproval policies transactions approvals agent body newId now
        FailPoint.beforePersist).2 = approvals)
    ∧ ((evaluateTransaction policies transactions agent.id cost
          body.targetProgram now).autoApproved = false →
        (requestApproval policies transactions approvals agent body newId now
          FailPoint.duringNotify).1 = Except.error HttpError.internalError
        ∧ ∃ req : ApprovalRequest,
            (requestApproval policies transactions approvals agent body newId
              now FailPoint.duringNotify).2 = approvals ++ [req])
    ∧ ((registerAgent users agents policies regBody naid npid key keyHash
        nowR true).1 = Except.error HttpError.internalError
      ∧ (registerAgent users agents policies regBody naid npid key keyHash
        nowR true).2 = (agents, policies)) := by
  refine ⟨?_, fun hauto => ?_, ?_⟩
  · simp only [requestApproval, hcost]
    rw [if_neg hdesc, if_neg (not_lt.mpr hnn), if_pos trivial]
    exact ⟨rfl, rfl⟩
  · simp only [requestApproval, hcost]
    rw [if_neg hdesc, if_neg (not_lt.mpr hnn), hauto,
      if_neg (by decide : ¬(FailPoint.duringNotify = FailPoint.beforePersist)),
      if_pos (show (!false && decide True) = true by rfl)]
    exact ⟨rfl, _, rfl⟩
  · simp only [registerAgent]
    rw [if_neg ?hval, if_neg (by rw [hw]; simp), if_neg (by rw [howner]; simp),
      if_pos trivial]
    · exact ⟨rfl, rfl⟩
    case hval =>
      rintro (h | h | h)
      · exact hname h
      · rw [h] at hw
        exact absurd hw (by decide)
      · exact hone h

/-- Witness for C7 (amended) at concrete inputs: a pre-persist failure leaves
the empty approvals store empty, and a failed registration leaves the empty
agent and policy stores empty. -/
theorem failure_atomicity_witness :
    (requestApproval [] [] [] agentEx bodyEx "appr-9" 0
        FailPoint.beforePersist).2 = ([] : List ApprovalRequest)
    ∧ (registerAgent ["owner-1"] [] [] regBodyEx "agent-9" "pol-9" "key-9"
        "hash-9" 0 true).2 = (([] : List Agent), ([] : List SpendingPolicy)) := by
  have h := failure_atomicity [] [] [] agentEx bodyEx "appr-9" 0 1 (by decide)
    rfl (by norm_num) ["owner-1"] [] regBodyEx "agent-9" "pol-9" "key-9"
    "hash-9" 0 (by decide) (by decide) (by decide) (by decide)
  exact ⟨h.1.2, h.2.2.2⟩

/-- C8: the raw-type table: `TRANSFER` and `TOKEN_TRANSFER` map to
`transfer`, `SWAP` to `swap`, `STAKE_SOL` and `STAKE_TOKEN` to `stake`, an
explicit `UNKNOWN` to `unknown`, and every other raw type to
`program_interaction`, matching case-insensitively. -/
theorem mapHeliusType_table (s : String) :
    ((strToUpper s = "TRANSFER" ∨ strToUpper s = "TOKEN_TRANSFER") →
      mapHeliusType s = TransactionType.transfer)
    ∧ (strToUpper s = "SWAP" → mapHeliusType s = TransactionType.swap)
    ∧ ((strToUpper s = "STAKE_SOL" ∨ strToUpper s = "STAKE_TOKEN") →
      mapHeliusType s = TransactionType.stake)
    ∧ (strToUpper s = "UNKNOWN" → mapHeliusType s = TransactionType.unknown)
    ∧ (strToUpper s ≠ "TRANSFER" → strToUpper s ≠ "TOKEN_TRANSFER" →
      strToUpper s ≠ "SWAP" → strToUpper s ≠ "STAKE_SOL" →
      strToUpper s ≠ "STAKE_TOKEN" → strToUpper s ≠ "UNKNOWN" →
      mapHeliusType s = TransactionType.program_interaction) := by
  refine ⟨fun h => ?_, fun h => ?_, fun h => ?_, fun h => ?_,
    fun h1 h2 h3 h4 h5 h6 => ?_⟩ <;> simp only [mapHeliusType]
  · rw [if_pos h]
  · rw [if_neg (by simp [h]), if_pos h]
  · rw [if_neg (by rcases h with h | h <;> simp [h]),
      if_neg (by rcases h with h | h <;> simp [h]), if_pos h]
  · rw [if_neg (by simp [h]), if_neg (by simp [h]),
      if_neg (by simp [h]), if_pos h]
  · rw [if_neg (by simp [h1, h2]), if_neg h3, if_neg (by simp [h4, h5]),
      if_neg h6]

/-- Witness for C8 at concrete inputs: a mixed-case transfer raw type and an
unrecognized raw type. -/
theorem mapHeliusType_table_witness :
    mapHeliusType "tRaNsFeR" = TransactionType.transfer
    ∧ mapHeliusType "NFT_SALE" = TransactionType.program_interaction :=
  ⟨(mapHeliusType_table "tRaNsFeR").1 (Or.inl (by decide)),
   (mapHeliusType_table "NFT_SALE").2.2.2.2 (by decide) (by decide)
     (by decide) (by decide) (by decide) (by decide)⟩

/-- The webhook loop staged, relative to an arbitrary starting accumulator:
one document per successfully processed event, ids indexed by the running
staged count. -/
theorem webhook_foldl (agents : List Agent) (ids : Nat → String)
    (events : List (Option HeliusEnhancedTransaction)) :
    ∀ acc : WebhookResult,
      (events.foldl (webhookStep agents ids) acc).staged
        = acc.staged ++ ((events.filterMap (fun e => e)).enumFrom
            acc.staged.length).map
            (fun p => buildTxDoc agents p.2 (ids p.1)) := by
  induction events with
  | nil =>
    intro acc
    simp
  | cons ev evs ih =>
    intro acc
    cases ev with
    | none =>
      simp only [List.foldl_cons, List.filterMap_cons]
      exact ih acc
    | some tx =>
      simp only [List.foldl_cons, List.filterMap_cons]
      rw [show webhookStep agents ids acc (some tx)
          = { staged := acc.staged
                ++ [buildTxDoc agents tx (ids acc.staged.length)],
              tallies :=
                match (buildTxDoc agents tx
                    (ids acc.staged.length)).agentId with
                | some aid => bumpTally acc.tallies aid
                | none => acc.tallies } from rfl, ih]
      simp [List.enumFrom, List.append_assoc, Nat.add_comm]

/-- C9: the documents committed by one ingestion batch are exactly one
normalized record per event that processed without error — matched to an
agent or not — in order, with ids drawn from the id supply; an erroring event
contributes no record and does not prevent the others from being staged and
committed together. -/
theorem onHeliusWebhook_batch (agents : List Agent)
    (events : List (Option HeliusEnhancedTransaction)) (ids : Nat → String) :
    (onHeliusWebhook agents events ids).staged
      = (events.filterMap (fun e => e)).enum.map
          (fun p => buildTxDoc agents p.2 (ids p.1)) := by
  have h := webhook_foldl agents ids events { staged := [], tallies := [] }
  simpa [List.enum] using h

/-- C10: a successful registration creates, atomically with the agent, a
default active policy for the new agent — daily limit 1.0 SOL, per-tx limit
0.5 SOL, empty allowlist, approval threshold 0.1 SOL — so the Policy
Evaluator never takes the no-active-policy fail-closed branch for a freshly
registered agent. -/
theorem registerAgent_default_policy (users : List String)
    (agents : List Agent) (policies : List SpendingPolicy)
    (body : RegisterBody) (newAgentId newPolicyId apiKey apiKeyHash : String)
    (now : Nat)
    (hname : body.name ≠ "")
    (hw : isValidSolanaAddress body.walletAddress = true)
    (howner : users.contains body.ownerId = true)
    (hone : body.ownerId ≠ "")
    (hfresh : loadPolicy policies newAgentId = none) :
    (registerAgent users agents policies body newAgentId newPolicyId apiKey
        apiKeyHash now false).1
      = Except.ok { agentId := newAgentId, apiKey := apiKey }
    ∧ loadPolicy (registerAgent users agents policies body newAgentId
        newPolicyId apiKey apiKeyHash now false).2.2 newAgentId
      = some (defaultPolicyFor newAgentId newPolicyId now)
    ∧ (defaultPolicyFor newAgentId newPolicyId now).dailyLimitSol = 1
    ∧ (defaultPolicyFor newAgentId newPolicyId now).perTxLimitSol = 1 / 2
    ∧ (defaultPolicyFor newAgentId newPolicyId now).allowlistedPrograms = []
    ∧ (defaultPolicyFor newAgentId newPolicyId now).requireApprovalAbove
      = 1 / 10
    ∧ (defaultPolicyFor newAgentId newPolicyId now).isActive = true
    ∧ ∀ (transactions : List TransactionRecord) (txAmount : ℚ)
        (programId : Option String) (now' : Nat),
        (evaluateTransaction (registerAgent users agents policies body
              newAgentId newPolicyId apiKey apiKeyHash now false).2.2
            transactions newAgentId txAmount programId now').reason
          ≠ Reason.noActivePolicy := by
  have hreg : registerAgent users agents policies body newAgentId newPolicyId
      apiKey apiKeyHash now false
      = (Except.ok { agentId := newAgentId, apiKey := apiKey },
         (agents ++
            [{ id := newAgentId, name := body.name,
               walletAddress := body.walletAddress,
               description := body.description.getD "",
               status := AgentStatus.active, apiKeyHash := apiKeyHash,
               createdAt := now, lastSeenAt := now,
               ownerId := body.ownerId }],
          policies ++ [defaultPolicyFor newAgentId newPolicyId now])) := by
    simp only [registerAgent]
    rw [if_neg ?hval, if_neg (by rw [hw]; simp), if_neg (by rw [howner]; simp),
      if_neg (by simp : ¬((false : Bool) = true))]
    case hval =>
      rintro (h | h | h)
      · exact hname h
      · rw [h] at hw
        exact absurd hw (by decide)
      · exact hone h
  have hload : loadPolicy
      (policies ++ [defaultPolicyFor newAgentId newPolicyId now]) newAgentId
      = some (defaultPolicyFor newAgentId newPolicyId now) := by
    unfold loadPolicy at hfresh ⊢
    rw [List.find?_append, hfresh]
    simp [List.find?, defaultPolicyFor]
  refine ⟨by rw [hreg], by rw [hreg]; exact hload, rfl, rfl, rfl, rfl, rfl,
    ?_⟩
  intro transactions txAmount programId now'
  rw [hreg]
  simp only [evaluateTransaction, hload]
  split_ifs <;> simp

/-- Witness for C10 at a concrete input: registering the sample body against
empty stores yields the default policy for the new agent, and a subsequent
evaluation never reports a missing policy. -/
theorem registerAgent_default_policy_witness :
    loadPolicy (registerAgent ["owner-1"] [] [] regBodyEx "agent-9" "pol-9"
        "key-9" "hash-9" 0 false).2.2 "agent-9"
      = some (defaultPolicyFor "agent-9" "pol-9" 0)
    ∧ (evaluateTransaction (registerAgent ["owner-1"] [] [] regBodyEx
          "agent-9" "pol-9" "key-9" "hash-9" 0 false).2.2 [] "agent-9" 5
        (some "ProgX") 0).reason ≠ Reason.noActivePolicy := by
  have h := registerAgent_default_policy ["owner-1"] [] [] regBodyEx
    "agent-9" "pol-9" "key-9" "hash-9" 0 (by decide) (by decide) (by decide)
    (by decide) rfl
  exact ⟨h.2.1, h.2.2.2.2.2.2.2 [] 5 (some "ProgX") 0⟩

end AgentDock
